import Mathlib

/-!
Verification of the Agentics-Research contract-translator repository.

This file gives a shallow embedding, in Lean 4, of the pure control logic of
the repository:

* `should_refine` from applications/contract-translator/core/agents.py, the
  decision function of the bounded audit/refine loop;
* `_strip_version_pragma` and `check_compilation` from
  applications/contract-translator/core/solidity_compiler.py, where the
  external compiler subprocess and the file system are modelled explicitly
  (`CompilerEnv`, `FSState`);
* the module-level demo-asset check of applications/launch_demo.py.

Python string primitives used by the code (split on newline, strip, lower,
startswith, the `in` substring test) are modelled as executable functions on
the character lists of Lean strings. They model the behaviour of the Python
methods on ASCII data, which is the only data the repository feeds them;
the extra Unicode case folding and Unicode whitespace of Python are outside
the model.

Python dictionaries that the code reads with `dict.get(key, default)` are
modelled as structures with `Option` fields, `none` standing for an absent
key. Python `int` is modelled as `Int`, Python `bool` as `Bool`, and the
`True / False / None` values of the `compiles` field as `Option Bool`.
-/

/-! ## Python string primitives -/

/-- Model of the Python whitespace test for ASCII characters: space, tab,
newline, carriage return, vertical tab, form feed. -/
def pyIsSpace (c : Char) : Bool :=
  c == ' ' || c == '\t' || c == '\n' || c == '\r' ||
    c == Char.ofNat 11 || c == Char.ofNat 12

/-- Model of the Python method str.strip with no arguments: remove leading
and trailing whitespace characters. -/
def pyStrip (s : String) : String :=
  String.mk (((s.toList.dropWhile pyIsSpace).reverse.dropWhile pyIsSpace).reverse)

/-- Model of the Python method str.lower on ASCII letters. -/
def pyLowerChar (c : Char) : Char :=
  if 'A' ≤ c ∧ c ≤ 'Z' then Char.ofNat (c.toNat + 32) else c

/-- Model of the Python method str.lower. -/
def pyLower (s : String) : String :=
  String.mk (s.toList.map pyLowerChar)

/-- Model of the Python method str.startswith. -/
def pyStartsWith (s pre : String) : Bool :=
  pre.toList.isPrefixOf s.toList

/-- Helper for the Python substring test: does the needle occur as a
contiguous sublist of the haystack. -/
def containsSub (needle : List Char) : List Char → Bool
  | [] => needle.isEmpty
  | c :: rest => needle.isPrefixOf (c :: rest) || containsSub needle rest

/-- Model of the Python test `needle in hay` on strings. -/
def pyContains (hay needle : String) : Bool :=
  containsSub needle.toList hay.toList

/-- Helper for splitting a character list at every occurrence of a
separator character. The result is never empty. -/
def pySplitCharList (sep : Char) : List Char → List (List Char)
  | [] => [[]]
  | c :: rest =>
    match pySplitCharList sep rest with
    | [] => [[c]]
    | first :: others =>
      if c == sep then [] :: first :: others else (c :: first) :: others

/-- Model of the Python call s.split with separator a single newline, as the
repository uses it. -/
def pySplitLines (s : String) : List String :=
  (pySplitCharList '\n' s.toList).map String.mk

/-! ## agents.py: the refinement decision -/

/-- Default maximum refinement iterations for the reinforcement loop
(DEFAULT_MAX_REFINEMENT_ITERATIONS in agents.py). -/
def DEFAULT_MAX_REFINEMENT_ITERATIONS : Int := 2

/-- The audit-report dictionary as `should_refine` reads it: the two keys it
accesses, each possibly absent. -/
structure AuditReport where
  severity_level : Option String
  approved : Option Bool
deriving DecidableEq

/-- Embedding of `should_refine` from agents.py. The Python body reads:
count at or above the maximum returns False; otherwise severity is the
lowercased value of the severity_level key (default the word unknown),
approved the value of the approved key (default False), and the result is
True exactly when not approved and severity is in the list
[medium, high, critical]. -/
def should_refine (audit_report : AuditReport) (refinement_count : Int)
    (max_iterations : Int) : Bool :=
  if refinement_count ≥ max_iterations then
    false
  else
    let severity := pyLower (audit_report.severity_level.getD "unknown")
    let approved := audit_report.approved.getD false
    if !approved && ["medium", "high", "critical"].contains severity then
      true
    else
      false

/-! ## solidity_compiler.py: pragma stripping and the compilation check -/

/-- Embedding of the method `_strip_version_pragma` of
SolidityCompilationChecker: split the code on newlines, keep in order every
line whose stripped text does not start with the text pragma solidity, and
join the kept lines with newlines. The Python for loop that appends kept
lines to filtered_lines is rendered as a left fold with an accumulator. -/
def _strip_version_pragma (solidity_code : String) : String :=
  let lines := pySplitLines solidity_code
  let filtered_lines := lines.foldl
    (fun acc line =>
      if pyStartsWith (pyStrip line) "pragma solidity" then acc
      else acc ++ [line]) []
  String.intercalate "\n" filtered_lines

/-- Outcome of one Python subprocess.run call, as the surrounding
try/except of check_compilation can observe it: a completed process with
return code, stdout and stderr; a raised TimeoutExpired; or any other
raised exception carrying a message. -/
structure SubprocessResult where
  returncode : Int
  stdout : String
  stderr : String
deriving DecidableEq

inductive RunOutcome where
  | ok (result : SubprocessResult)
  | timeout
  | exn (msg : String)
deriving DecidableEq

/-- The external world as check_compilation observes it: whether a compiler
was found at construction time, the outcome of the compile subprocess, the
outcome of the version subprocess, and the artifact files the compiler
writes into the output directory when compilation succeeds. -/
structure CompilerEnv where
  solc_available : Bool
  compileRun : RunOutcome
  versionRun : RunOutcome
  producedArtifacts : List String
deriving DecidableEq

/-- The result dictionary of check_compilation. The Python values
True, False and None of the compiles key are some true, some false and
none. -/
structure CompilationResult where
  compiles : Option Bool
  error_message : Option String
  warnings : List String
  compiler_version : Option String
deriving DecidableEq

/-- The file-system facts check_compilation manipulates: whether its
temporary .sol file currently exists, and the artifact files present in the
compilation_output directory. -/
structure FSState where
  tmpFileExists : Bool
  outputArtifacts : List String
deriving DecidableEq

/-- The result dictionary built in the except branch for TimeoutExpired. -/
def timeoutResult : CompilationResult :=
  { compiles := some false
    error_message := some "Compilation timed out after 30 seconds"
    warnings := []
    compiler_version := none }

/-- The result dictionary built in the except branch for any other
exception, whose message is interpolated after the fixed prefix. -/
def unexpectedErrorResult (msg : String) : CompilationResult :=
  { compiles := some false
    error_message := some ("Unexpected error during compilation: " ++ msg)
    warnings := []
    compiler_version := none }

/-- Embedding of the method check_compilation of SolidityCompilationChecker.
If no compiler is available it returns the not-available dictionary without
touching the file system. Otherwise it strips the version pragma, writes the
temporary .sol file, runs the compile subprocess and then the version
subprocess inside a try block whose except branches catch TimeoutExpired and
every other exception, builds the result dictionary from the return code and
stderr of the compile run, and in the finally branch unlinks the temporary
file on every exit path. Successful compilation adds the compiler artifact
files to the output directory; nothing ever removes them. -/
def check_compilation (env : CompilerEnv) (solidity_code : String)
    (fs : FSState) : CompilationResult × FSState :=
  if env.solc_available = false then
    ({ compiles := none
       error_message :=
         some "solc compiler not available. Install with: npm install -g solc"
       warnings := []
       compiler_version := none }, fs)
  else
    let _modified_code := _strip_version_pragma solidity_code
    let fs1 := { fs with tmpFileExists := true }
    let step : CompilationResult × FSState :=
      match env.compileRun with
      | RunOutcome.timeout => (timeoutResult, fs1)
      | RunOutcome.exn msg => (unexpectedErrorResult msg, fs1)
      | RunOutcome.ok result =>
        let fs2 := { fs1 with outputArtifacts :=
          fs1.outputArtifacts ++
            (if result.returncode = 0 then env.producedArtifacts else []) }
        match env.versionRun with
        | RunOutcome.timeout => (timeoutResult, fs2)
        | RunOutcome.exn msg => (unexpectedErrorResult msg, fs2)
        | RunOutcome.ok version_result =>
          let compiler_version :=
            if version_result.returncode = 0 then pyStrip version_result.stdout
            else "unknown"
          if result.returncode = 0 then
            let warnings :=
              if pyContains result.stderr "Warning:" then
                (pySplitLines result.stderr).foldl
                  (fun acc line =>
                    if pyContains line "Warning:" then acc ++ [pyStrip line]
                    else acc) []
              else []
            ({ compiles := some true
               error_message := none
               warnings := warnings
               compiler_version := some compiler_version }, fs2)
          else
            ({ compiles := some false
               error_message := some (pyStrip result.stderr)
               warnings := []
               compiler_version := some compiler_version }, fs2)
    (step.1, { step.2 with tmpFileExists := false })

/-! ## launch_demo.py: the module-level asset check -/

/-- Outcome of the module-level asset check of launch_demo.py: either the
process exits with a code, or the script proceeds, having printed the
sampler warning or not. -/
inductive AssetCheckOutcome where
  | exit (code : Nat)
  | proceed (samplerWarning : Bool)
deriving DecidableEq

/-- Embedding of the asset check at lines 56 to 66 of launch_demo.py: a
missing demo.html prints an error and calls sys.exit(1); a missing
sampler.html only prints a warning and the script proceeds. -/
def asset_check (demoExists samplerExists : Bool) : AssetCheckOutcome :=
  if !demoExists then AssetCheckOutcome.exit 1
  else if !samplerExists then AssetCheckOutcome.proceed true
  else AssetCheckOutcome.proceed false

/-! ## Helper lemmas -/

theorem should_refine_spec (r : AuditReport) (c m : Int) (h : c < m) :
    should_refine r c m =
      (!(r.approved.getD false) &&
        ["medium", "high", "critical"].contains
          (pyLower (r.severity_level.getD "unknown"))) := by
  simp only [should_refine]
  rw [if_neg (not_le.mpr h)]
  cases hb : (!(r.approved.getD false) &&
      ["medium", "high", "critical"].contains
        (pyLower (r.severity_level.getD "unknown"))) <;>
    simp [hb]

theorem foldl_skip_append (p : String → Bool) (l acc : List String) :
    l.foldl (fun acc line => if p line then acc else acc ++ [line]) acc
      = acc ++ l.filter (fun line => !p line) := by
  induction l generalizing acc with
  | nil => simp
  | cons x xs ih =>
    simp only [List.foldl_cons, List.filter_cons]
    by_cases hx : p x
    · rw [if_pos hx]
      simp [hx, ih]
    · rw [if_neg hx]
      simp [hx, ih]

theorem foldl_collect_append (p : String → Bool) (f : String → String)
    (l acc : List String) :
    l.foldl (fun acc line => if p line then acc ++ [f line] else acc) acc
      = acc ++ (l.filter p).map f := by
  induction l generalizing acc with
  | nil => simp
  | cons x xs ih =>
    simp only [List.foldl_cons, List.filter_cons]
    by_cases hx : p x
    · rw [if_pos hx]
      simp [hx, ih]
    · rw [if_neg hx]
      simp [hx, ih]

/-! ## Claim theorems for the refinement decision -/

/-- Claim C1: for every audit report and every refinement count strictly
below the maximum, `should_refine` returns true exactly when the approved
field of the report is false and its severity level is one of medium, high,
critical (severity ranging over the six canonical levels of the data model);
and for every report whose approved field is true it returns false whatever
the severity field holds. -/
theorem C1_should_refine_iff (count max : Int) (h : count < max) :
    (∀ (s : String) (a : Bool),
        s ∈ ["none", "low", "medium", "high", "critical", "unknown"] →
        (should_refine ⟨some s, some a⟩ count max = true ↔
          (a = false ∧ s ∈ ["medium", "high", "critical"]))) ∧
    (∀ sev : Option String,
        should_refine ⟨sev, some true⟩ count max = false) := by
  constructor
  · intro s a hs
    rw [should_refine_spec _ _ _ h]
    fin_cases hs <;> cases a <;> decide
  · intro sev
    rw [should_refine_spec _ _ _ h]
    simp [Option.getD]

theorem C1_should_refine_iff_witness :
    should_refine ⟨some "high", some false⟩ 0 2 = true ∧
    should_refine ⟨some "critical", some true⟩ 0 2 = false :=
  ⟨((C1_should_refine_iff 0 2 (by decide)).1 "high" false (by decide)).mpr
      ⟨rfl, by decide⟩,
    (C1_should_refine_iff 0 2 (by decide)).2 (some "critical")⟩

/-- Claim C2: for every audit report and every refinement count at or above
the maximum, `should_refine` returns false regardless of the report. -/
theorem C2_should_refine_hard_stop (r : AuditReport) (count max : Int)
    (h : count ≥ max) :
    should_refine r count max = false := by
  simp only [should_refine]
  rw [if_pos h]

theorem C2_should_refine_hard_stop_witness :
    should_refine ⟨some "critical", some false⟩ 2 2 = false :=
  C2_should_refine_hard_stop ⟨some "critical", some false⟩ 2 2 (by decide)

/-- Claim C3: for every report with approved false and severity level one of
none, low, unknown, `should_refine` returns false for every refinement count
and maximum. -/
theorem C3_should_refine_low_severity (s : String)
    (hs : s ∈ ["none", "low", "unknown"]) (count max : Int) :
    should_refine ⟨some s, some false⟩ count max = false := by
  rcases le_or_lt max count with h | h
  · exact C2_should_refine_hard_stop _ _ _ h
  · rw [should_refine_spec _ _ _ h]
    fin_cases hs <;> decide

theorem C3_should_refine_low_severity_witness :
    should_refine ⟨some "low", some false⟩ 0 2 = false :=
  C3_should_refine_low_severity "low" (by decide) 0 2

/-- Claim C10: `should_refine` treats a missing severity_level key as the
severity unknown and a missing approved key as not approved, and lowercases
the severity before comparing; hence below the maximum an empty report gives
false, and a report with approved false and any case variant of medium,
high or critical gives true. -/
theorem C10_should_refine_defaults (count max : Int) (h : count < max) :
    (∀ r : AuditReport,
        should_refine r count max =
          should_refine
            ⟨some (r.severity_level.getD "unknown"),
              some (r.approved.getD false)⟩ count max) ∧
    should_refine ⟨none, none⟩ count max = false ∧
    (∀ s : String, pyLower s ∈ ["medium", "high", "critical"] →
        should_refine ⟨some s, some false⟩ count max = true) := by
  refine ⟨fun r => rfl, ?_, fun s hs => ?_⟩
  · rw [should_refine_spec _ _ _ h]
    decide
  · rw [should_refine_spec _ _ _ h]
    simp only [Option.getD, Bool.not_false, Bool.true_and]
    simp only [List.mem_cons, List.mem_singleton, List.not_mem_nil,
      or_false] at hs
    rcases hs with h1 | h1 | h1 <;> rw [h1] <;> decide

theorem C10_should_refine_defaults_witness :
    should_refine ⟨none, none⟩ 0 2 = false ∧
    should_refine ⟨some "HIGH", some false⟩ 0 2 = true ∧
    should_refine ⟨some "Medium", some false⟩ 0 2 = true :=
  ⟨(C10_should_refine_defaults 0 2 (by decide)).2.1,
    (C10_should_refine_defaults 0 2 (by decide)).2.2 "HIGH" (by decide),
    (C10_should_refine_defaults 0 2 (by decide)).2.2 "Medium" (by decide)⟩

/-! ## Claim theorems for the compilation checker -/

/-- Claim C4: the pragma-stripping step removes exactly the lines whose
whitespace-trimmed text starts with the text pragma solidity, and keeps
every other line unchanged and in its original order: the accumulated
result of its loop is the filter of the split lines. -/
theorem C4_strip_version_pragma (solidity_code : String) :
    _strip_version_pragma solidity_code =
      String.intercalate "\n"
        ((pySplitLines solidity_code).filter
          (fun line => !pyStartsWith (pyStrip line) "pragma solidity")) := by
  simp only [_strip_version_pragma]
  rw [foldl_skip_append]
  simp

/-- Claim C5: with no compiler binary available, check_compilation returns
compiles none, the fixed not-available error message, an empty warning list
and no compiler version, and leaves the file system untouched (in the
embedding the function is total, so no exception can escape). -/
theorem C5_unavailable (env : CompilerEnv) (code : String) (fs : FSState)
    (h : env.solc_available = false) :
    (check_compilation env code fs).1 =
      { compiles := none
        error_message :=
          some "solc compiler not available. Install with: npm install -g solc"
        warnings := []
        compiler_version := none } ∧
    (check_compilation env code fs).2 = fs := by
  simp only [check_compilation]
  rw [if_pos h]
  exact ⟨rfl, rfl⟩

theorem C5_unavailable_witness :
    (check_compilation ⟨false, RunOutcome.timeout, RunOutcome.timeout, []⟩
        "contract C" ⟨false, []⟩).1 =
      { compiles := none
        error_message :=
          some "solc compiler not available. Install with: npm install -g solc"
        warnings := []
        compiler_version := none } :=
  (C5_unavailable ⟨false, RunOutcome.timeout, RunOutcome.timeout, []⟩
    "contract C" ⟨false, []⟩ rfl).1

/-- Claim C6 as amended: on a successful compile the warnings list holds
exactly the stderr lines containing the marker Warning:, each one with its
leading and trailing whitespace stripped rather than verbatim (and only
when the marker occurs in stderr at all, which the code tests first); on a
failed compile the error message is the entire trimmed stderr, warning
lines included, and the warnings list is empty. -/
theorem C6_stderr_parsing (env : CompilerEnv) (code : String) (fs : FSState)
    (r v : SubprocessResult) (h : env.solc_available = true)
    (hc : env.compileRun = RunOutcome.ok r)
    (hv : env.versionRun = RunOutcome.ok v) :
    (r.returncode = 0 →
      (check_compilation env code fs).1.warnings =
        (if pyContains r.stderr "Warning:" then
          ((pySplitLines r.stderr).filter
            (fun line => pyContains line "Warning:")).map pyStrip
         else [])) ∧
    (r.returncode ≠ 0 →
      (check_compilation env code fs).1.error_message =
        some (pyStrip r.stderr) ∧
      (check_compilation env code fs).1.warnings = []) := by
  constructor
  · intro h0
    by_cases hw : pyContains r.stderr "Warning:"
    · simp [check_compilation, h, hc, hv, h0, hw, foldl_collect_append]
    · simp [check_compilation, h, hc, hv, h0, hw]
  · intro h0
    simp [check_compilation, h, hc, hv, h0]

theorem C6_stderr_parsing_witness :
    (check_compilation
        ⟨true, RunOutcome.ok ⟨1, "", "Warning: w\nError: e"⟩,
          RunOutcome.ok ⟨0, "0.8.20", ""⟩, []⟩ "" ⟨false, []⟩).1.error_message =
      some (pyStrip "Warning: w\nError: e") :=
  ((C6_stderr_parsing
      ⟨true, RunOutcome.ok ⟨1, "", "Warning: w\nError: e"⟩,
        RunOutcome.ok ⟨0, "0.8.20", ""⟩, []⟩ "" ⟨false, []⟩
      ⟨1, "", "Warning: w\nError: e"⟩ ⟨0, "0.8.20", ""⟩
      rfl rfl rfl).2 (by decide)).1

/-- Claim C6 as stated fails on the code: a warning line with surrounding
whitespace is collected stripped, not verbatim, and on a failed compile the
error message is the whole stderr, not only its non-warning content. -/
theorem C6_counterexample :
    (check_compilation
        ⟨true, RunOutcome.ok ⟨0, "", "  Warning: unused variable"⟩,
          RunOutcome.ok ⟨0, "0.8.20", ""⟩, []⟩ "" ⟨false, []⟩).1.warnings =
      ["Warning: unused variable"] ∧
    (check_compilation
        ⟨true, RunOutcome.ok ⟨0, "", "  Warning: unused variable"⟩,
          RunOutcome.ok ⟨0, "0.8.20", ""⟩, []⟩ "" ⟨false, []⟩).1.warnings ≠
      ["  Warning: unused variable"] ∧
    (check_compilation
        ⟨true, RunOutcome.ok ⟨1, "", "Warning: w\nError: e"⟩,
          RunOutcome.ok ⟨0, "0.8.20", ""⟩, []⟩ "" ⟨false, []⟩).1.error_message =
      some "Warning: w\nError: e" ∧
    (check_compilation
        ⟨true, RunOutcome.ok ⟨1, "", "Warning: w\nError: e"⟩,
          RunOutcome.ok ⟨0, "0.8.20", ""⟩, []⟩ "" ⟨false, []⟩).1.error_message ≠
      some "Error: e" :=
  ⟨by decide, by decide, by decide, by decide⟩

/-- Claim C7: a compile-subprocess timeout or any unexpected exception is
absorbed by the except branches: the result has compiles some false and a
non-null error message, and in the embedding the function is total, so the
fault never reaches the caller. -/
theorem C7_fault_containment (env : CompilerEnv) (code : String)
    (fs : FSState) (h : env.solc_available = true)
    (hf : env.compileRun = RunOutcome.timeout ∨
      ∃ msg, env.compileRun = RunOutcome.exn msg) :
    (check_compilation env code fs).1.compiles = some false ∧
    (check_compilation env code fs).1.error_message ≠ none := by
  rcases hf with hc | ⟨msg, hc⟩ <;>
    simp [check_compilation, h, hc, timeoutResult, unexpectedErrorResult]

theorem C7_fault_containment_witness :
    (check_compilation ⟨true, RunOutcome.timeout, RunOutcome.timeout, []⟩
        "" ⟨false, []⟩).1.compiles = some false :=
  (C7_fault_containment ⟨true, RunOutcome.timeout, RunOutcome.timeout, []⟩
    "" ⟨false, []⟩ rfl (Or.inl rfl)).1

/-- Claim C8 as amended: on every run that reaches the compilation step the
temporary .sol file is removed on every exit path, but the compilation
output artifacts are only ever added to the output directory, never
removed. -/
theorem C8_tmpfile_cleanup (env : CompilerEnv) (code : String)
    (fs : FSState) (h : env.solc_available = true) :
    (check_compilation env code fs).2.tmpFileExists = false ∧
    ∃ created, (check_compilation env code fs).2.outputArtifacts =
      fs.outputArtifacts ++ created := by
  constructor
  · simp only [check_compilation]
    rw [if_neg (by simp [h])]
  · cases hc : env.compileRun with
    | timeout => exact ⟨[], by simp [check_compilation, h, hc]⟩
    | exn msg => exact ⟨[], by simp [check_compilation, h, hc]⟩
    | ok r =>
      refine ⟨if r.returncode = 0 then env.producedArtifacts else [], ?_⟩
      cases hv : env.versionRun with
      | timeout => simp [check_compilation, h, hc, hv]
      | exn msg => simp [check_compilation, h, hc, hv]
      | ok v =>
        by_cases h0 : r.returncode = 0 <;>
          simp [check_compilation, h, hc, hv, h0]

theorem C8_tmpfile_cleanup_witness :
    (check_compilation
        ⟨true, RunOutcome.ok ⟨0, "", ""⟩, RunOutcome.ok ⟨0, "0.8.20", ""⟩,
          ["Token.bin"]⟩ "contract C" ⟨false, []⟩).2.tmpFileExists = false :=
  (C8_tmpfile_cleanup
    ⟨true, RunOutcome.ok ⟨0, "", ""⟩, RunOutcome.ok ⟨0, "0.8.20", ""⟩,
      ["Token.bin"]⟩ "contract C" ⟨false, []⟩ rfl).1

/-- Claim C8 as stated fails on the code: after a successful compile the
artifact the compiler wrote into the output directory is still there when
check_compilation returns, so not all temporary artifacts are removed. -/
theorem C8_counterexample :
    (check_compilation
        ⟨true, RunOutcome.ok ⟨0, "", ""⟩, RunOutcome.ok ⟨0, "0.8.20", ""⟩,
          ["Token.bin"]⟩ "contract C" ⟨false, []⟩).2.outputArtifacts =
      ["Token.bin"] ∧
    (check_compilation
        ⟨true, RunOutcome.ok ⟨0, "", ""⟩, RunOutcome.ok ⟨0, "0.8.20", ""⟩,
          ["Token.bin"]⟩ "contract C" ⟨false, []⟩).2.outputArtifacts ≠
      [] :=
  ⟨by decide, by decide⟩

/-! ## Claim theorem for the launcher -/

/-- Claim C9: a missing demo.html makes the launcher exit with code 1
whatever the state of sampler.html, while a missing sampler.html with
demo.html present only raises the warning flag and the script proceeds. -/
theorem C9_launcher_assets :
    (∀ samplerExists : Bool,
        asset_check false samplerExists = AssetCheckOutcome.exit 1) ∧
    asset_check true false = AssetCheckOutcome.proceed true ∧
    asset_check true true = AssetCheckOutcome.proceed false :=
  ⟨fun _ => rfl, rfl, rfl⟩
